import Mathlib

/-!
Shallow embedding of the groq-api-cookbook notebooks.

The repository consists of three notebooks:
* `tutorials/image_moderation.ipynb` — image analysis + safety check with a
  Gradio front end (`encode_image`, `analyze_image`, `check_content_safety`,
  `process_image`), plus a mixture-of-agents notebook sharing the same file
  (`create_agent`, `concat_response`, `CYCLES`, `LAYER_AGENT`, `chat_stream`).
* `tutorials/llama-guard-safe-chatbot/...` — `get_llamaguard_response` and the
  end-to-end filtered-chatbot cell.
* `tutorials/multimodal-image-processing/...` — `encode_image`,
  `image_classification` (JSON mode) and the batch classification loop.

Remote model calls, the file system and the JSON parser are external to this
repository; they are represented by explicit oracle parameters.  Python strings
are modelled by Lean `String`, with the character-level operations the
notebooks use (slicing, `sorted`, `endswith`) modelled on `String.data`,
i.e. as code-point sequences, matching Python semantics.
-/

/-! ### Character-level string operations (Python semantics) -/

/-- Lexicographic `<=` on code-point sequences: Python's `str` comparison,
used by `sorted()`. -/
def charListLe : List Char → List Char → Bool
  | [], _ => true
  | _ :: _, [] => false
  | a :: as, b :: bs => if a < b then true else if b < a then false else charListLe as bs

/-- Python `a <= b` on strings. -/
def pyStrLe (a b : String) : Bool := charListLe a.data b.data

/-- Python `s.endswith(suffix)` on code-point sequences. -/
def pyEndsWithL (s suf : List Char) : Bool :=
  decide (suf.length ≤ s.length) && (s.drop (s.length - suf.length) == suf)

/-- Python `s.endswith(suffix)`. -/
def pyEndsWith (s suf : String) : Bool := pyEndsWithL s.data suf.data

/-- Python slicing `s[:200]` (used by the chatbot cell's `content[:200]`),
a character-count slice. -/
def pySlice200 (s : String) : String := String.mk (s.data.take 200)

/-- Does `hay` begin with `needle`?  (Helper for substring containment.) -/
def beginsWith : List Char → List Char → Bool
  | [], _ => true
  | _ :: _, [] => false
  | x :: xs, y :: ys => x == y && beginsWith xs ys

/-- Does `hay` contain `needle` as a contiguous run?  (Python `needle in hay`.) -/
def containsRun (needle : List Char) : List Char → Bool
  | [] => beginsWith needle []
  | c :: t => beginsWith needle (c :: t) || containsRun needle t

/-- Split a code-point sequence on a separator character. -/
def splitOnChar (sep : Char) : List Char → List (List Char)
  | [] => [[]]
  | c :: rest =>
    let r := splitOnChar sep rest
    if c = sep then [] :: r
    else
      match r with
      | [] => [[c]]
      | g :: gs => (c :: g) :: gs

/-- Drop leading spaces (enough of Python `str.strip()` for category codes). -/
def dropSpaces (l : List Char) : List Char := l.dropWhile (fun c => c == ' ')

/-! ### Base64 and the image data URI

`encode_image` in `llama-3.2-image-classification.ipynb` reads the bytes of a
local file and returns `base64.b64encode(bytes).decode('utf-8')`; call sites
embed the result in the data URI `f"data:image/jpeg;base64,{base64_image}"`.
Bytes are modelled as `Nat`s below 256; standard base64 with `=` padding is
implemented so the spec's round-trip property is about executable code. -/

/-- The standard base64 alphabet. -/
def B64_CHARS : List Char :=
  "ABCDEFGHIJKLMNOPQRSTUVWXYZabcdefghijklmnopqrstuvwxyz0123456789+/".data

/-- Character for a six-bit group. -/
def sextetChar (n : Nat) : Char := B64_CHARS.getD n 'A'

/-- Index of a base64 character in the alphabet. -/
def charSextet (c : Char) : Nat := B64_CHARS.findIdx (fun x => x == c)

/-- Base64-encode a byte sequence, processing three bytes into four
characters, with `=` padding on a final partial group. -/
def b64encodeL : List Nat → List Char
  | [] => []
  | [a] => [sextetChar (a / 4), sextetChar (a % 4 * 16), '=', '=']
  | [a, b] =>
    [sextetChar (a / 4), sextetChar (a % 4 * 16 + b / 16), sextetChar (b % 16 * 4), '=']
  | a :: b :: c :: rest =>
    sextetChar (a / 4) :: sextetChar (a % 4 * 16 + b / 16) ::
      sextetChar (b % 16 * 4 + c / 64) :: sextetChar (c % 64) :: b64encodeL rest

/-- Base64-decode four characters at a time, honouring `=` padding. -/
def b64decodeL : List Char → Option (List Nat)
  | [] => some []
  | c1 :: c2 :: c3 :: c4 :: rest =>
    if c3 = '=' then
      if c4 = '=' ∧ rest = [] then
        some [charSextet c1 * 4 + charSextet c2 / 16]
      else none
    else if c4 = '=' then
      if rest = [] then
        some [charSextet c1 * 4 + charSextet c2 / 16,
              charSextet c2 % 16 * 16 + charSextet c3 / 4]
      else none
    else
      match b64decodeL rest with
      | none => none
      | some tail =>
        some ((charSextet c1 * 4 + charSextet c2 / 16) ::
              (charSextet c2 % 16 * 16 + charSextet c3 / 4) ::
              (charSextet c3 % 4 * 64 + charSextet c4) :: tail)
  | _ => none

/-- `encode_image(image_path)`: base64 text of the file's bytes
(the file read is the `bytes` parameter). -/
def encode_image (bytes : List Nat) : String := String.mk (b64encodeL bytes)

/-- The data-URI head used at every image call site. -/
def DATA_URI_HEAD : String := "data:image/jpeg;base64,"

/-- The call sites' `f"data:image/jpeg;base64,{base64_image}"`. -/
def make_image_data_uri (bytes : List Nat) : String :=
  DATA_URI_HEAD ++ encode_image bytes

/-- Strip an expected head from a code-point sequence. -/
def stripHead : List Char → List Char → Option (List Char)
  | [], l => some l
  | _ :: _, [] => none
  | p :: ps, c :: cs => if p = c then stripHead ps cs else none

/-- Decode a base64 data URI back to the byte sequence it carries. -/
def decode_image_data_uri (s : String) : Option (List Nat) :=
  match stripHead DATA_URI_HEAD.data s.data with
  | some rest => b64decodeL rest
  | none => none

/-! ### Moderation wrappers

`check_content_safety` (image_moderation notebook) wraps its completion call
in `try/except` and returns `f"Error: {str(e)}"` on failure.
`get_llamaguard_response` (llama-guard notebook) performs the call with no
`try/except`: an exception propagates to the caller.  The remote completion
call is an oracle `String → Except String String` (`ok` = returned message
content, `error` = raised exception message). -/

/-- `check_content_safety(image_description, api_key)`: returns the model
content, or the formatted error string when the call raises. -/
def check_content_safety (chat : String → Except String String)
    (image_description : String) : String :=
  match chat image_description with
  | Except.ok content => content
  | Except.error e => "Error: " ++ e

/-- `get_llamaguard_response(user_message)`: returns the raw model content;
it has no `try/except`, so a raised exception propagates (`Except.error`). -/
def get_llamaguard_response (chat : String → Except String String)
    (user_message : String) : Except String String :=
  chat user_message

/-- The fixed message printed for a non-`"safe"` moderation response. -/
def COMMUNITY_GUIDELINES_MSG : String :=
  "Your message contains content that violates our community guidelines. Please ensure your comments are respectful and safe for all users. Thank you!"

/-- Result of one run of the end-to-end chatbot cell: the user messages sent
to the downstream chat model, and the text the cell prints for the answer. -/
structure ChatbotResult where
  downstream_calls : List String
  output : String
deriving DecidableEq, Repr

/-- The end-to-end chatbot cell: obtain the Llama-Guard response for
`user_message`; if it equals `"safe"`, perform one downstream chat call and
print `'LLM Response'`, the first 200 characters of its content, and `'...'`;
otherwise print the fixed community-guidelines message. -/
def chatbot_scenario (guard : String → Except String String)
    (downstream : String → String) (user_message : String) :
    Except String ChatbotResult :=
  match get_llamaguard_response guard user_message with
  | Except.error e => Except.error e
  | Except.ok llamaguard_response =>
    if llamaguard_response = "safe" then
      Except.ok
        { downstream_calls := [user_message]
          output := "LLM Response " ++ pySlice200 (downstream user_message) ++ " ..." }
    else
      Except.ok { downstream_calls := [], output := COMMUNITY_GUIDELINES_MSG }

/-- The 14 category codes of the llama-guard taxonomy (`S1`..`S14`). -/
def specCategoryCodes : List String :=
  ["S1", "S2", "S3", "S4", "S5", "S6", "S7", "S8", "S9", "S10", "S11", "S12", "S13", "S14"]

/-- Modelled from the spec: the spec's data-model contract for a
classification result — either exactly `"safe"`, or `"unsafe"` followed by a
newline and a comma- or newline-separated list of codes drawn from
`S1`..`S14`.  (Spec §3 and §8; the code under `src/` does not enforce this
shape, which is what claim C7 is compared against.) -/
def specModerationShape (s : String) : Bool :=
  s.data == "safe".data ||
  ((s.data.take 7 == "unsafe\n".data) &&
    (((splitOnChar ',' (s.data.drop 7)).all
        (fun c => specCategoryCodes.contains (String.mk (dropSpaces c)))) ||
     ((splitOnChar '\n' (s.data.drop 7)).all
        (fun c => specCategoryCodes.contains (String.mk (dropSpaces c))))))

/-! ### JSON-mode extractor and the batch classification loop

`image_classification` sends the image and prompt and returns
`json.loads(response_content)`.  The parser is the external `json` library,
modelled as an oracle `String → Except String JVal`; the notebook code adds
no validation of its own.  The batch loop iterates
`sorted([f for f in os.listdir(folder) if f.endswith('.png')])`, classifies
each file, sets `image_json['image_file'] = image_file` and appends. -/

/-- JSON values (the possible results of `json.loads`). -/
inductive JVal where
  | str : String → JVal
  | num : Int → JVal
  | bool : Bool → JVal
  | null : JVal
  | arr : List JVal → JVal
  | obj : List (String × JVal) → JVal

/-- A parsed record: a Python dict in insertion order. -/
abbrev Record := List (String × JVal)

/-- Python `d[k] = v`: update an existing key in place, else append. -/
def dictSet : Record → String → JVal → Record
  | [], k, v => [(k, v)]
  | (k', v') :: rest, k, v =>
    if k' = k then (k, v) :: rest else (k', v') :: dictSet rest k v

/-- Python `d.get(k)`. -/
def dictGet : Record → String → Option JVal
  | [], _ => none
  | (k', v') :: rest, k => if k' = k then some v' else dictGet rest k

/-- `image_classification(base64_image, user_prompt)`: one JSON-mode chat
call whose text is fed to `json.loads`; the parse result (or parse failure)
is returned as is. -/
def image_classification (chat : String → String → String)
    (parse : String → Except String JVal) (base64_image user_prompt : String) :
    Except String JVal :=
  parse (chat base64_image user_prompt)

/-- The batch cell's `image_folder = 'images/'`. -/
def IMAGE_FOLDER : String := "images/"

/-- One file of the batch loop: `encode_image(image_folder + f)` then
`image_classification(base64_image, user_prompt)`.  `enc` is the
file-system-plus-base64 oracle (path to base64 text). -/
def classifyFile (enc : String → String) (chat : String → String → String)
    (parse : String → Except String JVal) (user_prompt f : String) :
    Except String JVal :=
  image_classification chat parse (enc (IMAGE_FOLDER ++ f)) user_prompt

/-- `sorted([f for f in os.listdir(image_folder) if f.endswith('.png')])`
(a stable sort by the lexicographic string order). -/
def sortedPngs (listdir : List String) : List String :=
  List.insertionSort (fun a b => pyStrLe a b = true)
    (listdir.filter (fun f => pyEndsWith f ".png"))

/-- The body of the batch loop over an already sorted file list.  Returns the
accumulated record list (or the propagated exception) together with the trace
of files for which a classification call was made.  A non-dict parse result
makes the `image_json['image_file'] = ...` assignment raise (`TypeError`). -/
def batchGo (classify : String → Except String JVal) :
    List String → Except String (List Record) × List String
  | [] => (Except.ok [], [])
  | f :: rest =>
    match classify f with
    | Except.error e => (Except.error e, [f])
    | Except.ok (JVal.obj d) =>
      let r := batchGo classify rest
      (match r.1 with
       | Except.error e => Except.error e
       | Except.ok rs => Except.ok (dictSet d "image_file" (JVal.str f) :: rs),
       f :: r.2)
    | Except.ok _ => (Except.error "TypeError: item assignment on a non-dict value", [f])

/-- The batch classification cell. -/
def batch_loop (enc : String → String) (chat : String → String → String)
    (parse : String → Except String JVal) (user_prompt : String)
    (listdir : List String) : Except String (List Record) × List String :=
  batchGo (classifyFile enc chat parse user_prompt) (sortedPngs listdir)

/-! ### Mixture-of-agents orchestrator

`chat_stream` runs `CYCLES` refinement cycles over the three-agent
`LAYER_AGENT` mapping and then streams `MAIN_AGENT`.  A layer agent is an
oracle from the full `llm_inp` dict to its text output; the main agent is an
oracle from `llm_inp` to its stream of chunks.  `ConversationBufferMemory`
is a message list to which `save_context` appends the human/AI pair. -/

/-- Message roles stored in the conversation memory. -/
inductive Role where
  | human : Role
  | ai : Role
deriving DecidableEq, Repr

/-- One stored conversation message. -/
structure ChatMsg where
  role : Role
  content : String
deriving DecidableEq, Repr

/-- `CHAT_MEMORY.save_context({'input': q}, {'output': out})`. -/
def save_context (mem : List ChatMsg) (inp out : String) : List ChatMsg :=
  mem ++ [{ role := Role.human, content := inp }, { role := Role.ai, content := out }]

/-- The `llm_inp` dict passed to every agent. -/
structure LlmInp where
  input : String
  messages : List ChatMsg
  helper_response : String
deriving DecidableEq, Repr

/-- The cycle hyperparameter of the notebook. -/
def CYCLES : Nat := 3

/-- `REFERENCE_SYSTEM_PROMPT` up to and including the `Responses from models:`
line; `concat_response` substitutes the numbered responses after it. -/
def REF_SYSTEM_PROMPT_HEAD : String :=
  "You have been provided with a set of responses from various open-source models to the latest user query. \nYour task is to synthesize these responses into a single, high-quality response. \nIt is crucial to critically evaluate the information provided in these responses, recognizing that some of it may be biased or incorrect. \nYour response should not simply replicate the given answers but should offer a refined, accurate, and comprehensive reply to the instruction. \nEnsure your response is well-structured, coherent, and adheres to the highest standards of accuracy and reliability.\nResponses from models:\n"

/-- `concat_response`: number the layer outputs in mapping order and
substitute them into the reference system prompt. -/
def concat_response (outs : List String) : String :=
  REF_SYSTEM_PROMPT_HEAD ++
    String.join (outs.enum.map (fun p => toString p.1 ++ ". " ++ p.2 ++ "\n")) ++ "\n"

/-- The `for _ in range(CYCLES)` loop of `chat_stream`: each iteration invokes
every layer agent on the current `llm_inp` and rebuilds `llm_inp` with the
concatenated helper block.  Returns the final `llm_inp` together with the
trace of (agent index, input) layer-agent invocations. -/
def cycleLoop (agents : List (LlmInp → String)) (mem : List ChatMsg) (q : String) :
    Nat → LlmInp → LlmInp × List (Nat × LlmInp)
  | 0, inp => (inp, [])
  | n + 1, inp =>
    let helper := concat_response (agents.map (fun a => a inp))
    let calls := (List.range agents.length).map (fun i => (i, inp))
    let r := cycleLoop agents mem q n { input := q, messages := mem, helper_response := helper }
    (r.1, calls ++ r.2)

/-- Observable outcome of one `chat_stream` turn. -/
structure MoaResult where
  chunks : List String
  memory : List ChatMsg
  layerCalls : List (Nat × LlmInp)
  mainCalls : List LlmInp

/-- `chat_stream(query)`: run the cycle loop from
`{'input': query, 'messages': memory, 'helper_response': ""}`, stream the main
agent on the final `llm_inp`, and append the (query, joined-stream) pair to
the conversation memory. -/
def chat_stream (agents : List (LlmInp → String)) (main : LlmInp → List String)
    (mem : List ChatMsg) (q : String) : MoaResult :=
  let inp0 : LlmInp := { input := q, messages := mem, helper_response := "" }
  let r := cycleLoop agents mem q CYCLES inp0
  let chunks := main r.1
  let response := String.join chunks
  { chunks := chunks
    memory := save_context mem q response
    layerCalls := r.2
    mainCalls := [r.1] }

/-! ### Gradio front end: `process_image`

`process_image(image, url, prompt, api_key)` analyzes an uploaded image or a
URL.  In both non-error branches it calls `analyze_image` twice with the same
arguments (once for display, once to feed `check_content_safety`); the
invocation-indexed oracle `analyze` makes the two calls distinguishable.
`fetch` models `requests.get` + `Image.open` (`none` = raises). -/

/-- Argument tuple of an `analyze_image` call. -/
structure AnalyzeArgs where
  image : String
  user_prompt : String
  api_key : String
  is_url : Bool
deriving DecidableEq, Repr

/-- `process_image`, returning the (analysis output, safety output) pair and
the trace of `analyze_image` invocations (call index, arguments). -/
def process_image (analyze : Nat → AnalyzeArgs → String) (check : String → String)
    (fetch : String → Option Unit) (image : Option String)
    (url user_prompt api_key : String) :
    (String × String) × List (Nat × AnalyzeArgs) :=
  match image with
  | some img =>
    let a : AnalyzeArgs := { image := img, user_prompt := user_prompt, api_key := api_key, is_url := false }
    ((analyze 0 a, check (analyze 1 a)), [(0, a), (1, a)])
  | none =>
    if url ≠ "" then
      match fetch url with
      | some _ =>
        let a : AnalyzeArgs := { image := url, user_prompt := user_prompt, api_key := api_key, is_url := true }
        ((analyze 0 a, check (analyze 1 a)), [(0, a), (1, a)])
      | none => (("Invalid image URL. Please provide a direct link to an image.", ""), [])
    else
      (("Please provide an image to analyze.", ""), [])

/-! ### Concrete oracle instances (used by witnesses and counterexamples) -/

/-- A completion oracle whose call always raises. -/
def failChat : String → Except String String := fun _ => Except.error "boom"

/-- A completion oracle that always answers `"safe"`. -/
def safeChat : String → Except String String := fun _ => Except.ok "safe"

/-- A completion oracle that answers `"unsafe\nS13"`. -/
def s13Chat : String → Except String String := fun _ => Except.ok "unsafe\nS13"

/-- A completion oracle that answers a string outside the safe/unsafe shape. -/
def helloChat : String → Except String String := fun _ => Except.ok "hello"

/-- A 201-character downstream answer: 200 `'a'`s then one `'b'`. -/
def longContent : String := String.mk (List.replicate 200 'a' ++ ['b'])

/-- A downstream chat oracle returning `longContent`. -/
def longDownstream : String → String := fun _ => longContent

/-- The text the chatbot cell prints for the `longDownstream` answer. -/
def longOutput : String := "LLM Response " ++ pySlice200 longContent ++ " ..."

/-- A downstream chat oracle echoing its message. -/
def echoDownstream : String → String := fun s => "echo: " ++ s

/-- Identity `enc` oracle: the base64 text of a file is its path. -/
def wEnc : String → String := fun p => p

/-- Chat oracle for the extractor returning the image argument. -/
def wChat : String → String → String := fun b _ => b

/-- Parse oracle: every response parses to a one-field dict. -/
def wParse : String → Except String JVal :=
  fun s => Except.ok (JVal.obj [("dog_breed", JVal.str s)])

/-- The record `wParse`/`wChat`/`wEnc` produce for a file name. -/
def wExt : String → Record :=
  fun f => [("dog_breed", JVal.str (IMAGE_FOLDER ++ f))]

/-- Parse oracle: every response fails to parse. -/
def wParseFail : String → Except String JVal := fun _ => Except.error "Expecting value"

/-- Parse oracle: every response parses, but to a bare string, not a dict. -/
def wParseStr : String → Except String JVal := fun s => Except.ok (JVal.str s)

/-- A layer agent answering a fixed string. -/
def wAgent : LlmInp → String := fun _ => "x"

/-- A main agent streaming two fixed chunks. -/
def wMain : LlmInp → List String := fun _ => ["Hello, ", "world"]

/-- An analysis oracle whose answer is the invocation index. -/
def variedAnalyze : Nat → AnalyzeArgs → String := fun n _ => toString n

/-- Identity safety-check oracle. -/
def idCheck : String → String := fun s => s

/-- A fetch oracle for which every URL loads. -/
def okFetch : String → Option Unit := fun _ => some ()

/-- A fetch oracle for which every URL raises. -/
def badFetch : String → Option Unit := fun _ => none

/-! ## Helper lemmas -/

theorem charSextet_sextetChar_fin : ∀ n : Fin 64, charSextet (sextetChar n.val) = n.val := by
  decide

theorem charSextet_sextetChar {n : Nat} (h : n < 64) : charSextet (sextetChar n) = n :=
  charSextet_sextetChar_fin ⟨n, h⟩

theorem sextetChar_ne_pad_fin : ∀ n : Fin 64, sextetChar n.val ≠ '=' := by
  decide

theorem sextetChar_ne_pad {n : Nat} (h : n < 64) : sextetChar n ≠ '=' :=
  sextetChar_ne_pad_fin ⟨n, h⟩

theorem b64decodeL_b64encodeL : ∀ l : List Nat, (∀ b ∈ l, b < 256) →
    b64decodeL (b64encodeL l) = some l
  | [], _ => rfl
  | [a], h => by
    have ha : a < 256 := h a (by simp)
    simp only [b64encodeL, b64decodeL, if_pos rfl]
    simp only [and_self, if_true, reduceIte, Option.some.injEq, List.cons.injEq, and_true]
    rw [charSextet_sextetChar (by omega), charSextet_sextetChar (by omega)]
    omega
  | [a, b], h => by
    have ha : a < 256 := h a (by simp)
    have hb : b < 256 := h b (by simp)
    simp only [b64encodeL, b64decodeL]
    rw [if_neg (sextetChar_ne_pad (by omega))]
    simp only [if_pos rfl, reduceIte, Option.some.injEq, List.cons.injEq, and_true]
    rw [charSextet_sextetChar (by omega), charSextet_sextetChar (by omega),
      charSextet_sextetChar (by omega)]
    constructor <;> omega
  | a :: b :: c :: rest, h => by
    have ha : a < 256 := h a (by simp)
    have hb : b < 256 := h b (by simp)
    have hc : c < 256 := h c (by simp)
    have ih := b64decodeL_b64encodeL rest (fun x hx => h x (by simp [hx]))
    simp only [b64encodeL, b64decodeL]
    rw [if_neg (sextetChar_ne_pad (by omega)), if_neg (sextetChar_ne_pad (by omega)), ih]
    simp only [Option.some.injEq, List.cons.injEq]
    rw [charSextet_sextetChar (by omega), charSextet_sextetChar (by omega),
      charSextet_sextetChar (by omega), charSextet_sextetChar (by omega)]
    exact ⟨by omega, by omega, by omega, trivial⟩

theorem stripHead_append : ∀ p l : List Char, stripHead p (p ++ l) = some l
  | [], _ => rfl
  | p :: ps, l => by
    simp only [List.cons_append, stripHead, if_pos rfl]
    exact stripHead_append ps l

/-! ## Claim C8 -/

/-- C8: for every byte sequence read from a local image file, encoding it into
a base64 data URI (`encode_image` plus the `data:image/jpeg;base64,` head) and
decoding the base64 payload back yields exactly the original bytes. -/
theorem c8_image_data_uri_roundtrip (bytes : List Nat) (h : ∀ b ∈ bytes, b < 256) :
    decode_image_data_uri (make_image_data_uri bytes) = some bytes := by
  unfold decode_image_data_uri make_image_data_uri
  rw [String.data_append]
  rw [show (encode_image bytes).data = b64encodeL bytes from rfl]
  rw [stripHead_append]
  exact b64decodeL_b64encodeL bytes h

/-- Witness for C8 at a concrete byte sequence. -/
theorem c8_image_data_uri_roundtrip_witness :
    (∀ b ∈ ([0, 77, 128, 255, 10] : List Nat), b < 256) ∧
      decode_image_data_uri (make_image_data_uri [0, 77, 128, 255, 10]) =
        some [0, 77, 128, 255, 10] :=
  ⟨by decide, c8_image_data_uri_roundtrip [0, 77, 128, 255, 10] (by decide)⟩

/-! ## Claim C4

The image-moderation wrapper `check_content_safety` catches the exception and
returns `"Error: ..."`.  The llama-guard wrapper `get_llamaguard_response` has
no `try/except`, so the claim's "catches and returns a string" part fails on
it: the exception propagates. -/

/-- C4 counterexample: with a raising completion oracle,
`get_llamaguard_response` propagates the exception instead of returning a
normal string beginning `"Error: "`. -/
theorem c4_counterexample :
    get_llamaguard_response failChat "hi" = Except.error "boom" ∧
      (get_llamaguard_response failChat "hi").isOk = false :=
  ⟨rfl, rfl⟩

/-- C4 (amended): when the underlying chat-completion call raises,
`check_content_safety` catches the exception and returns `"Error: "` followed
by the exception message (and returns the model content on success), whereas
`get_llamaguard_response` propagates the exception unchanged. -/
theorem c4_error_wrapping (chatM chatG : String → Except String String)
    (desc msg e c : String) :
    (chatM desc = Except.error e → check_content_safety chatM desc = "Error: " ++ e) ∧
    (chatM desc = Except.ok c → check_content_safety chatM desc = c) ∧
    (chatG msg = Except.error e → get_llamaguard_response chatG msg = Except.error e) := by
  refine ⟨fun h => ?_, fun h => ?_, fun h => ?_⟩ <;>
    simp [check_content_safety, get_llamaguard_response, h]

/-- Witness for C4 at a concrete raising oracle. -/
theorem c4_error_wrapping_witness :
    failChat "d" = Except.error "boom" ∧
      check_content_safety failChat "d" = "Error: " ++ "boom" :=
  ⟨rfl, (c4_error_wrapping failChat failChat "d" "m" "boom" "c").1 rfl⟩

/-! ## Claim C7

`get_llamaguard_response` returns the remote model's response text unmodified
and enforces nothing, so its output has the safe/unsafe shape only when the
raw model response does. -/

/-- C7 counterexample: a model response outside the safe/unsafe shape is
returned as is, so the wrapper's output is neither `"safe"` nor an
`"unsafe"`-headed category list. -/
theorem c7_counterexample :
    get_llamaguard_response helloChat "hi" = Except.ok "hello" ∧
      specModerationShape "hello" = false :=
  ⟨rfl, by decide⟩

/-- C7 (amended): the wrapper is a pass-through — it returns the raw model
response unmodified, so its output satisfies the spec's safe/unsafe shape iff
the raw model response does; the code itself does not enforce the shape. -/
theorem c7_moderation_shape (chat : String → Except String String) (msg r : String)
    (h : chat msg = Except.ok r) :
    get_llamaguard_response chat msg = Except.ok r ∧
      (specModerationShape r = true ↔
        ∃ s, get_llamaguard_response chat msg = Except.ok s ∧ specModerationShape s = true) := by
  refine ⟨by simpa [get_llamaguard_response] using h, ?_, ?_⟩
  · intro hr
    exact ⟨r, by simpa [get_llamaguard_response] using h, hr⟩
  · rintro ⟨s, hs, hshape⟩
    rw [get_llamaguard_response, h] at hs
    injection hs with h2
    subst h2
    exact hshape

/-- Witness for C7 at a well-shaped concrete response. -/
theorem c7_moderation_shape_witness :
    s13Chat "hi" = Except.ok "unsafe\nS13" ∧
      (get_llamaguard_response s13Chat "hi" = Except.ok "unsafe\nS13" ∧
        (specModerationShape "unsafe\nS13" = true ↔
          ∃ s, get_llamaguard_response s13Chat "hi" = Except.ok s ∧
            specModerationShape s = true)) :=
  ⟨rfl, c7_moderation_shape s13Chat "hi" "unsafe\nS13" rfl⟩

/-! ## Claim C2

The downstream call is gated on `llamaguard_response == 'safe'` exactly, and
the non-safe branch prints the fixed community-guidelines message.  But the
safe branch prints only `content[:200]`, so for contents longer than 200
characters "its content is forwarded" fails. -/

/-- C2 counterexample: with a mocked `"safe"` response and a 201-character
downstream content, exactly one downstream call is made, yet the emitted
output does not contain the content — only its first 200 characters are
forwarded. -/
theorem c2_counterexample :
    chatbot_scenario safeChat longDownstream "hi" =
        Except.ok { downstream_calls := ["hi"], output := longOutput } ∧
      containsRun longContent.data longOutput.data = false :=
  ⟨rfl, by decide⟩

/-- C2 (amended): the downstream chat call is performed iff the moderation
response equals exactly `"safe"`, in which case exactly one downstream call is
made and the first 200 characters of its content are emitted (as
`LLM Response <content[:200]> ...`); for every other moderation response the
downstream call is suppressed and the fixed community-guidelines message is
emitted verbatim. -/
theorem c2_safety_gate (guard : String → Except String String)
    (downstream : String → String) (msg resp : String)
    (h : guard msg = Except.ok resp) :
    (resp = "safe" →
      chatbot_scenario guard downstream msg =
        Except.ok { downstream_calls := [msg],
                    output := "LLM Response " ++ pySlice200 (downstream msg) ++ " ..." }) ∧
    (resp ≠ "safe" →
      chatbot_scenario guard downstream msg =
        Except.ok { downstream_calls := [], output := COMMUNITY_GUIDELINES_MSG }) := by
  unfold chatbot_scenario get_llamaguard_response
  rw [h]
  constructor
  · intro hr
    simp [hr]
  · intro hr
    simp [hr]

/-- Witness for C2: the safe branch at a concrete echoing downstream oracle,
and the unsafe branch at a concrete `"unsafe\nS13"` response. -/
theorem c2_safety_gate_witness :
    (safeChat "hi" = Except.ok "safe" ∧
      chatbot_scenario safeChat echoDownstream "hi" =
        Except.ok { downstream_calls := ["hi"],
                    output := "LLM Response " ++ pySlice200 (echoDownstream "hi") ++ " ..." }) ∧
    (s13Chat "hi" = Except.ok "unsafe\nS13" ∧
      chatbot_scenario s13Chat echoDownstream "hi" =
        Except.ok { downstream_calls := [], output := COMMUNITY_GUIDELINES_MSG }) :=
  ⟨⟨rfl, (c2_safety_gate safeChat echoDownstream "hi" "safe" rfl).1 rfl⟩,
   ⟨rfl, (c2_safety_gate s13Chat echoDownstream "hi" "unsafe\nS13" rfl).2 (by decide)⟩⟩

/-! ## Claim C9 -/

/-- C9: `process_image` surfaces a missing or invalid image resource as a
fixed user-facing pair instead of raising: with no uploaded image and a
nonempty URL whose fetch raises it returns
`('Invalid image URL. Please provide a direct link to an image.', '')`, and
with neither an uploaded image nor a URL it returns
`('Please provide an image to analyze.', '')`; no analysis call is made in
either case. -/
theorem c9_front_end_errors (analyze : Nat → AnalyzeArgs → String)
    (check : String → String) (fetch : String → Option Unit)
    (url user_prompt api_key : String) :
    (url ≠ "" → fetch url = none →
      process_image analyze check fetch none url user_prompt api_key =
        (("Invalid image URL. Please provide a direct link to an image.", ""), [])) ∧
    (url = "" →
      process_image analyze check fetch none url user_prompt api_key =
        (("Please provide an image to analyze.", ""), [])) := by
  constructor
  · intro hu hf
    simp [process_image, hu, hf]
  · intro hu
    simp [process_image, hu]

/-- Witness for C9: a concrete always-raising fetch and a concrete empty
submission. -/
theorem c9_front_end_errors_witness :
    (("u" ≠ "") ∧ badFetch "u" = none ∧
      process_image variedAnalyze idCheck badFetch none "u" "p" "k" =
        (("Invalid image URL. Please provide a direct link to an image.", ""), [])) ∧
    process_image variedAnalyze idCheck badFetch none "" "p" "k" =
      (("Please provide an image to analyze.", ""), []) :=
  ⟨⟨by decide, rfl,
    (c9_front_end_errors variedAnalyze idCheck badFetch "u" "p" "k").1 (by decide) rfl⟩,
   (c9_front_end_errors variedAnalyze idCheck badFetch "" "p" "k").2 rfl⟩

/-! ## Claim C10 -/

/-- C10: in both the uploaded-image branch and the successful-URL branch,
`process_image` invokes `analyze_image` twice with identical arguments; the
first result is displayed as the analysis output and the second, separate
result is what is passed to the safety check — so a nondeterministic analysis
function can display one description while safety-checking another (final
conjunct: a concrete invocation-dependent oracle where the displayed
description is `"0"` but the safety-checked description is `"1"`). -/
theorem c10_double_analysis (analyze : Nat → AnalyzeArgs → String)
    (check : String → String) (fetch : String → Option Unit)
    (img url user_prompt api_key : String) :
    (process_image analyze check fetch (some img) url user_prompt api_key =
      ((analyze 0 { image := img, user_prompt := user_prompt, api_key := api_key, is_url := false },
        check (analyze 1 { image := img, user_prompt := user_prompt, api_key := api_key, is_url := false })),
       [(0, { image := img, user_prompt := user_prompt, api_key := api_key, is_url := false }),
        (1, { image := img, user_prompt := user_prompt, api_key := api_key, is_url := false })])) ∧
    (url ≠ "" → fetch url = some () →
      process_image analyze check fetch none url user_prompt api_key =
        ((analyze 0 { image := url, user_prompt := user_prompt, api_key := api_key, is_url := true },
          check (analyze 1 { image := url, user_prompt := user_prompt, api_key := api_key, is_url := true })),
         [(0, { image := url, user_prompt := user_prompt, api_key := api_key, is_url := true }),
          (1, { image := url, user_prompt := user_prompt, api_key := api_key, is_url := true })])) ∧
    ((process_image variedAnalyze idCheck badFetch (some "img") "" "p" "k").1 = ("0", "1") ∧
      ("0" : String) ≠ "1") := by
  refine ⟨rfl, fun hu hf => ?_, rfl, by decide⟩
  simp [process_image, hu, hf]

/-- Witness for C10: the URL branch at a concrete always-loading fetch. -/
theorem c10_double_analysis_witness :
    ("u" ≠ "") ∧ okFetch "u" = some () ∧
      process_image variedAnalyze idCheck okFetch none "u" "p" "k" =
        ((variedAnalyze 0 { image := "u", user_prompt := "p", api_key := "k", is_url := true },
          idCheck (variedAnalyze 1 { image := "u", user_prompt := "p", api_key := "k", is_url := true })),
         [(0, { image := "u", user_prompt := "p", api_key := "k", is_url := true }),
          (1, { image := "u", user_prompt := "p", api_key := "k", is_url := true })]) :=
  ⟨by decide, rfl,
    (c10_double_analysis variedAnalyze idCheck okFetch "x" "u" "p" "k").2.1 (by decide) rfl⟩

/-! ## Claims C1 and C6 -/

theorem cycleLoop_messages (agents : List (LlmInp → String)) (mem : List ChatMsg)
    (q : String) :
    ∀ (n : Nat) (inp : LlmInp), inp.messages = mem →
      (∀ c ∈ (cycleLoop agents mem q n inp).2, c.2.messages = mem) ∧
      (cycleLoop agents mem q n inp).1.messages = mem
  | 0, inp, h => ⟨by simp [cycleLoop], by simpa [cycleLoop] using h⟩
  | n + 1, inp, h => by
    have ih := cycleLoop_messages agents mem q n
      { input := q, messages := mem,
        helper_response := concat_response (agents.map (fun a => a inp)) } rfl
    constructor
    · intro c hc
      simp only [cycleLoop, List.mem_append, List.mem_map] at hc
      rcases hc with ⟨i, _, rfl⟩ | hc
      · exact h
      · exact ih.1 c hc
    · simpa [cycleLoop] using ih.2

/-- C1: per user turn, `chat_stream` with `CYCLES = 3` and the three-agent
`LAYER_AGENT` mapping invokes each layer agent exactly once per cycle — the
trace is the first cycle's three calls on `i1`, then the second cycle's on
`i2`, then the third's on `i3`, `CYCLES * 3` calls in total — then invokes the
main agent exactly once, on an input whose `helper_response` is the
concatenation of the last cycle's three layer outputs. -/
theorem c1_moa_call_shape (a0 a1 a2 : LlmInp → String) (main : LlmInp → List String)
    (mem : List ChatMsg) (q : String) :
    (chat_stream [a0, a1, a2] main mem q).layerCalls.length = CYCLES * 3 ∧
    ∃ i1 i2 i3 : LlmInp,
      i1 = { input := q, messages := mem, helper_response := "" } ∧
      i2 = { input := q, messages := mem,
             helper_response := concat_response [a0 i1, a1 i1, a2 i1] } ∧
      i3 = { input := q, messages := mem,
             helper_response := concat_response [a0 i2, a1 i2, a2 i2] } ∧
      (chat_stream [a0, a1, a2] main mem q).layerCalls =
        [(0, i1), (1, i1), (2, i1), (0, i2), (1, i2), (2, i2), (0, i3), (1, i3), (2, i3)] ∧
      (chat_stream [a0, a1, a2] main mem q).mainCalls =
        [{ input := q, messages := mem,
           helper_response := concat_response [a0 i3, a1 i3, a2 i3] }] ∧
      (chat_stream [a0, a1, a2] main mem q).chunks =
        main { input := q, messages := mem,
               helper_response := concat_response [a0 i3, a1 i3, a2 i3] } := by
  exact ⟨rfl, _, _, _, rfl, rfl, rfl, rfl, rfl, rfl⟩

/-- C6: the conversation memory is append-only and mutated exactly once per
turn — the post-turn memory is the pre-turn memory with the single
(input, final-output) pair appended, where the stored output is the
concatenation of all streamed chunks — while every layer-agent call of every
cycle and the single main-agent call observe the unchanged pre-turn memory. -/
theorem c6_memory_append_only (a0 a1 a2 : LlmInp → String) (main : LlmInp → List String)
    (mem : List ChatMsg) (q : String) :
    (chat_stream [a0, a1, a2] main mem q).memory =
      mem ++ [{ role := Role.human, content := q },
              { role := Role.ai,
                content := String.join (chat_stream [a0, a1, a2] main mem q).chunks }] ∧
    (∀ c ∈ (chat_stream [a0, a1, a2] main mem q).layerCalls, c.2.messages = mem) ∧
    (∀ i ∈ (chat_stream [a0, a1, a2] main mem q).mainCalls, i.messages = mem) := by
  refine ⟨rfl, ?_, ?_⟩
  · intro c hc
    exact (cycleLoop_messages [a0, a1, a2] mem q CYCLES
      { input := q, messages := mem, helper_response := "" } rfl).1 c hc
  · intro i hi
    have h1 := (cycleLoop_messages [a0, a1, a2] mem q CYCLES
      { input := q, messages := mem, helper_response := "" } rfl).2
    simp only [chat_stream, List.mem_singleton] at hi
    rw [hi]
    exact h1

/-- Witness for C6 at concrete agents, applied to the first layer call of the
first cycle and to the main-agent call. -/
theorem c6_memory_append_only_witness :
    (((0 : Nat), ({ input := "q", messages := [], helper_response := "" } : LlmInp)) ∈
        (chat_stream [wAgent, wAgent, wAgent] wMain [] "q").layerCalls ∧
      ({ input := "q", messages := [], helper_response := "" } : LlmInp).messages = []) ∧
    (chat_stream [wAgent, wAgent, wAgent] wMain [] "q").memory =
      [{ role := Role.human, content := "q" },
       { role := Role.ai, content := "Hello, world" }] :=
  ⟨⟨by decide,
    (c6_memory_append_only wAgent wAgent wAgent wMain [] "q").2.1
      (0, { input := "q", messages := [], helper_response := "" }) (by decide)⟩,
   (c6_memory_append_only wAgent wAgent wAgent wMain [] "q").1⟩

/-! ## Claims C3 and C5 -/

theorem dictGet_dictSet_self : ∀ (d : Record) (k : String) (v : JVal),
    dictGet (dictSet d k v) k = some v
  | [], _, _ => by simp [dictSet, dictGet]
  | (k', v') :: rest, k, v => by
    by_cases h : k' = k
    · simp [dictSet, dictGet, h]
    · simp only [dictSet, dictGet, if_neg h]
      exact dictGet_dictSet_self rest k v

theorem dictGet_dictSet_ne : ∀ (d : Record) (k k2 : String) (v : JVal), k2 ≠ k →
    dictGet (dictSet d k v) k2 = dictGet d k2
  | [], k, k2, v, h => by simp [dictSet, dictGet, Ne.symm h]
  | (k', v') :: rest, k, k2, v, h => by
    by_cases hk : k' = k
    · subst hk
      simp [dictSet, dictGet, Ne.symm h]
    · by_cases hk2 : k' = k2
      · subst hk2
        simp [dictSet, dictGet, if_neg hk]
      · simp only [dictSet, dictGet, if_neg hk, if_neg hk2]
        exact dictGet_dictSet_ne rest k k2 v h

theorem charListLe_total : ∀ a b : List Char, (charListLe a b || charListLe b a) = true
  | [], _ => by simp [charListLe]
  | _ :: _, [] => by simp [charListLe]
  | a :: as, b :: bs => by
    simp only [charListLe]
    rcases lt_trichotomy a b with h | h | h
    · simp [h]
    · subst h
      simp [lt_irrefl, charListLe_total as bs]
    · simp [h, not_lt_of_gt h]

theorem charListLe_trans : ∀ a b c : List Char,
    charListLe a b = true → charListLe b c = true → charListLe a c = true
  | [], _, _, _, _ => rfl
  | _ :: _, [], _, h1, _ => by simp [charListLe] at h1
  | _ :: _, _ :: _, [], _, h2 => by simp [charListLe] at h2
  | a :: as, b :: bs, c :: cs, h1, h2 => by
    simp only [charListLe] at h1 h2 ⊢
    rcases lt_trichotomy a b with hab | hab | hab
    · rcases lt_trichotomy b c with hbc | hbc | hbc
      · simp [lt_trans hab hbc]
      · subst hbc
        simp [hab]
      · simp [not_lt_of_gt hbc, hbc] at h2
    · subst hab
      rcases lt_trichotomy a c with hac | hac | hac
      · simp [hac]
      · subst hac
        simp only [lt_irrefl, if_false] at h1 h2 ⊢
        exact charListLe_trans as bs cs h1 h2
      · simp [not_lt_of_gt hac, hac] at h2
    · simp [not_lt_of_gt hab, hab] at h1

theorem batchGo_all_ok (classify : String → Except String JVal) (ext : String → Record) :
    ∀ fs : List String, (∀ f ∈ fs, classify f = Except.ok (JVal.obj (ext f))) →
      batchGo classify fs =
        (Except.ok (fs.map (fun f => dictSet (ext f) "image_file" (JVal.str f))), fs)
  | [], _ => rfl
  | f :: rest, h => by
    have hf : classify f = Except.ok (JVal.obj (ext f)) := h f (by simp)
    have ih := batchGo_all_ok classify ext rest (fun g hg => h g (by simp [hg]))
    simp [batchGo, hf, ih]

theorem batchGo_halt (classify : String → Except String JVal) (e : String) :
    ∀ (pre : List String) (f : String) (post : List String),
      (∀ g ∈ pre, ∃ d, classify g = Except.ok (JVal.obj d)) →
      classify f = Except.error e →
      batchGo classify (pre ++ f :: post) = (Except.error e, pre ++ [f])
  | [], f, post, _, hf => by simp [batchGo, hf]
  | g :: pre, f, post, h, hf => by
    obtain ⟨d, hd⟩ := h g (by simp)
    have ih := batchGo_halt classify e pre f post (fun g2 hg2 => h g2 (by simp [hg2])) hf
    simp [batchGo, hd, ih]

/-- C3: over a directory whose matching image files all yield successful
extractions, the batch loop produces exactly one record per `.png` file — the
extractor's dict with `image_file` set to the source filename — iterating the
matching files in sorted order; the result list is their records in that
order, so each file contributes exactly one record appended exactly once, and
every record keeps the extractor's fields and maps `image_file` to its
filename. -/
theorem c3_batch_records (enc : String → String) (chat : String → String → String)
    (parse : String → Except String JVal) (user_prompt : String)
    (listdir : List String) (ext : String → Record)
    (h : ∀ f ∈ sortedPngs listdir,
      classifyFile enc chat parse user_prompt f = Except.ok (JVal.obj (ext f))) :
    batch_loop enc chat parse user_prompt listdir =
      (Except.ok ((sortedPngs listdir).map
          (fun f => dictSet (ext f) "image_file" (JVal.str f))),
        sortedPngs listdir) ∧
    ((sortedPngs listdir).map (fun f => dictSet (ext f) "image_file" (JVal.str f))).length =
      (listdir.filter (fun f => pyEndsWith f ".png")).length ∧
    List.Pairwise (fun a b => pyStrLe a b = true) (sortedPngs listdir) ∧
    (∀ f ∈ sortedPngs listdir,
      dictGet (dictSet (ext f) "image_file" (JVal.str f)) "image_file" =
          some (JVal.str f) ∧
        ∀ k, k ≠ "image_file" →
          dictGet (dictSet (ext f) "image_file" (JVal.str f)) k = dictGet (ext f) k) := by
  refine ⟨batchGo_all_ok _ ext _ h, by simp [sortedPngs], ?_, ?_⟩
  · exact @List.sorted_insertionSort String (fun a b => pyStrLe a b = true)
      (fun _ _ => inferInstance)
      ⟨fun a b => by
        have hab := charListLe_total a.data b.data
        simp only [Bool.or_eq_true] at hab
        exact hab⟩
      ⟨fun a b c h1 h2 => charListLe_trans a.data b.data c.data h1 h2⟩
      (listdir.filter (fun f => pyEndsWith f ".png"))
  · intro f _
    exact ⟨dictGet_dictSet_self _ _ _, fun k hk => dictGet_dictSet_ne _ _ _ _ hk⟩

/-- Witness for C3 at a concrete directory listing and concrete oracles. -/
theorem c3_batch_records_witness :
    (∀ f ∈ sortedPngs ["b.png", "a.png", "c.txt"],
      classifyFile wEnc wChat wParse "p" f =
        Except.ok (JVal.obj (wExt f))) ∧
    batch_loop wEnc wChat wParse "p" ["b.png", "a.png", "c.txt"] =
      (Except.ok ((sortedPngs ["b.png", "a.png", "c.txt"]).map
          (fun f => dictSet (wExt f) "image_file" (JVal.str f))),
        sortedPngs ["b.png", "a.png", "c.txt"]) :=
  ⟨fun _ _ => rfl,
   (c3_batch_records wEnc wChat wParse "p" ["b.png", "a.png", "c.txt"] wExt
      (fun _ _ => rfl)).1⟩

/-- C5: `image_classification` returns exactly the JSON parse of the response
body — the parsed value when the body parses (with no validation beyond
parseability, so any parsed value, e.g. one missing schema fields, is
returned as is) and the propagated parse failure when it does not — and one
unparseable response halts the batch loop: the files after the failing one
are never attempted. -/
theorem c5_json_mode_propagation (chat : String → String → String)
    (parse : String → Except String JVal) (enc : String → String)
    (b64 user_prompt e : String) (v : JVal)
    (listdir : List String) (pre : List String) (f : String) (post : List String) :
    (parse (chat b64 user_prompt) = Except.ok v →
      image_classification chat parse b64 user_prompt = Except.ok v) ∧
    (parse (chat b64 user_prompt) = Except.error e →
      image_classification chat parse b64 user_prompt = Except.error e) ∧
    (sortedPngs listdir = pre ++ f :: post →
      (∀ g ∈ pre, ∃ d, classifyFile enc chat parse user_prompt g =
        Except.ok (JVal.obj d)) →
      classifyFile enc chat parse user_prompt f = Except.error e →
      batch_loop enc chat parse user_prompt listdir = (Except.error e, pre ++ [f])) := by
  refine ⟨fun h => h, fun h => h, fun hs hpre hf => ?_⟩
  rw [batch_loop, hs]
  exact batchGo_halt _ e pre f post hpre hf

/-- Witness for C5: a concrete parsed value is passed through, and a concrete
failing parse halts a concrete batch after the first sorted file. -/
theorem c5_json_mode_propagation_witness :
    (wParseStr (wChat "img" "p") = Except.ok (JVal.str "img") ∧
      image_classification wChat wParseStr "img" "p" = Except.ok (JVal.str "img")) ∧
    (sortedPngs ["b.png", "a.png", "c.txt"] = [] ++ "a.png" :: ["b.png"] ∧
      wParseFail (wChat (wEnc (IMAGE_FOLDER ++ "a.png")) "p") =
        Except.error "Expecting value" ∧
      batch_loop wEnc wChat wParseFail "p" ["b.png", "a.png", "c.txt"] =
        (Except.error "Expecting value", [] ++ ["a.png"])) :=
  ⟨⟨rfl, (c5_json_mode_propagation wChat wParseStr wEnc "img" "p" "e" (JVal.str "img")
      [] [] "x" []).1 rfl⟩,
   ⟨by decide, rfl,
    (c5_json_mode_propagation wChat wParseFail wEnc "img" "p" "Expecting value"
        JVal.null ["b.png", "a.png", "c.txt"] [] "a.png" ["b.png"]).2.2
      (by decide) (fun g hg => absurd hg (by simp)) rfl⟩⟩
